import Mathlib

/-!
Shallow embedding of the GeoMapCam capture-and-retrieval workflow.

The repository consists of three TypeScript units:
- GeoCamera (capture workflow: getCurrentLocation, takePhoto, retakePhoto),
- GeoMapView (gallery reconstruction: loadPhotos, thumbnail selection),
- PermissionHandler (permission gate: requestPermissions).

Coordinates are modelled as rationals, epoch timestamps as integers.
External device calls (geolocation, camera shutter, photo store, permission
prompts) are modelled as environment values handed to each operation: each
possible outcome of the native call is one constructor of the environment
type, so a single invocation of the TypeScript function corresponds to one
application of the Lean function to one environment.
-/

namespace GeoMapCam

/-! ## Capture workflow data model (GeoCamera) -/

/-- Locale date formatting is abstracted as an injective rendering of the
epoch timestamp; no claim depends on its concrete text. -/
def dateString (t : Int) : String := toString t

/-- LocationData from GeoCamera: latitude, longitude, epoch timestamp and a
rendered date string. -/
structure LocationData where
  latitude : Rat
  longitude : Rat
  timestamp : Int
  date : String
deriving DecidableEq

/-- CapturedImageData from GeoCamera: the file URI of the captured photo
together with the location fix attached to it. -/
structure CapturedImageData where
  uri : String
  location : LocationData
deriving DecidableEq

/-- The local state of the GeoCamera component: capturedImage, location,
isCapturing and cameraError useState variables. The cameraPosition flip is
independent of every claim and omitted. -/
structure CameraState where
  capturedImage : Option CapturedImageData
  location : Option LocationData
  isCapturing : Bool
  cameraError : Option String
deriving DecidableEq

/-- Outcome of one Geolocation.getCurrentPosition call: the success callback
delivers coordinates and a position timestamp; the error callback covers both
provider errors and expiry of the 15000 ms timeout option, which the native
layer also reports through the error callback. -/
inductive GeoResult where
  | success (latitude longitude : Rat) (timestamp : Int)
  | failure
deriving DecidableEq

/-- getCurrentLocation from GeoCamera: wraps getCurrentPosition in a promise
that never rejects. On success it packages the coordinates; on error it
resolves with the sentinel fix (0, 0, Date.now()). -/
def getCurrentLocation (res : GeoResult) (now : Int) : LocationData :=
  match res with
  | .success lat lon ts =>
      { latitude := lat, longitude := lon, timestamp := ts, date := dateString ts }
  | .failure =>
      { latitude := 0, longitude := 0, timestamp := now, date := dateString now }

/-- Outcome of one cameraRef.current.takePhoto call: thrown models the call
rejecting; returned path models a resolved photo object, where the empty
string stands for the falsy cases (missing photo object or missing path)
that the source guards with (!photo || !photo.path). -/
inductive PhotoResult where
  | thrown
  | returned (path : String)
deriving DecidableEq

/-- Environment of one takePhoto invocation: the values the native calls
would deliver during that invocation. requestGrants is the result of the
requestPermission prompt when hasPermission is false; saveOk tells whether
the CameraRoll.save call succeeds. -/
structure CaptureEnv where
  hasPermission : Bool
  requestGrants : Bool
  cameraRefPresent : Bool
  geo : GeoResult
  now : Int
  photoResult : PhotoResult
  platformAndroid : Bool
  saveOk : Bool
deriving DecidableEq

/-- Observable side effects of one takePhoto invocation: the file paths
successfully persisted into the GeoMapCamera album, and the messages passed
to alert. The repository defines alert as a stub that throws after the
message is passed; every state update of the catch block happens before the
stub is reached and the finally block still runs, so the resulting state is
as recorded here. -/
structure CaptureEffects where
  savedPaths : List String
  alerts : List String
deriving DecidableEq

def noCaptureEffects : CaptureEffects := { savedPaths := [], alerts := [] }

/-- The user-facing message set and alerted when the shutter fails. -/
def captureFailedMsg : String := "Failed to take photo. Please try again."

def permissionAlertMsg : String := "Camera permission is required to take photos"

/-- The state reached inside takePhoto once the guards have passed: the
source clears cameraError and sets isCapturing before its first await, so
this is the state any re-entrant invocation observes while the first capture
is in flight. -/
def inFlight (s : CameraState) : CameraState :=
  { s with cameraError := none, isCapturing := true }

/-- The platform-dependent file URI built from the photo path. -/
def filePathOf (env : CaptureEnv) (path : String) : String :=
  if env.platformAndroid then "file://" ++ path else path

/-- The try/catch/finally body of takePhoto, entered with isCapturing set:
acquire the location (never fails, see getCurrentLocation), store it, invoke
the shutter; a thrown call or a falsy photo/path sets cameraError and
alerts; otherwise the save is attempted (its failure only logged) and the
captured image is stored. The finally clause clears isCapturing on every
path. -/
def takePhotoBody (env : CaptureEnv) (s : CameraState) : CameraState × CaptureEffects :=
  let locationData := getCurrentLocation env.geo env.now
  let s1 := { s with location := some locationData }
  match env.photoResult with
  | .thrown =>
      ({ s1 with cameraError := some captureFailedMsg, isCapturing := false },
       { savedPaths := [], alerts := [captureFailedMsg] })
  | .returned path =>
      if path = "" then
        ({ s1 with cameraError := some captureFailedMsg, isCapturing := false },
         { savedPaths := [], alerts := [captureFailedMsg] })
      else
        let fp := filePathOf env path
        ({ s1 with capturedImage := some { uri := fp, location := locationData },
                   isCapturing := false },
         { savedPaths := if env.saveOk then [fp] else [], alerts := [] })

/-- takePhoto from GeoCamera. Guard one: without camera permission, prompt;
if still not granted, alert and return. Guard two: missing camera ref or an
in-flight capture returns immediately. Otherwise clear cameraError, set
isCapturing and run the body. -/
def takePhoto (env : CaptureEnv) (s : CameraState) : CameraState × CaptureEffects :=
  if !env.hasPermission && !env.requestGrants then
    (s, { savedPaths := [], alerts := [permissionAlertMsg] })
  else if !env.cameraRefPresent || s.isCapturing then
    (s, noCaptureEffects)
  else
    takePhotoBody env (inFlight s)

/-- retakePhoto from GeoCamera: discards the preview by clearing
capturedImage. -/
def retakePhoto (s : CameraState) : CameraState :=
  { s with capturedImage := none }

/-! ## Gallery reconstruction data model (GeoMapView) -/

/-- The location field a raw CameraRoll node may carry. The source guards
each coordinate with a falsy-default (value or 0), which on numbers maps 0
to 0 and any other number to itself. -/
structure RawLocation where
  latitude : Rat
  longitude : Rat
deriving DecidableEq

/-- The image field of a raw CameraRoll node. -/
structure RawImage where
  uri : String
  width : Int
  height : Int
deriving DecidableEq

/-- One node of the CameraRoll.getPhotos result; location is absent when no
location metadata survived persistence. -/
structure RawNode where
  image : RawImage
  location : Option RawLocation
deriving DecidableEq

structure PhotoLocation where
  latitude : Rat
  longitude : Rat
  timestamp : Int
deriving DecidableEq

structure PhotoDimensions where
  width : Int
  height : Int
deriving DecidableEq

/-- PhotoData from GeoMapView (the GalleryPhoto of the specification). -/
structure PhotoData where
  id : String
  uri : String
  location : PhotoLocation
  dimensions : PhotoDimensions
deriving DecidableEq

/-- A map viewport region. -/
structure Region where
  latitude : Rat
  longitude : Rat
  latitudeDelta : Rat
  longitudeDelta : Rat
deriving DecidableEq

/-- The local state of the GeoMapView component: the photos list, the
selected photo and the map region. permissionsGranted is the readiness flag
the component reads from the usePermissions hook. -/
structure GalleryState where
  permissionsGranted : Bool
  photos : List PhotoData
  selectedPhoto : Option PhotoData
  region : Region
deriving DecidableEq

/-- The initial region: default center of India at a 20 degree span. -/
def defaultRegion : Region :=
  { latitude := 20.5937, longitude := 78.9629, latitudeDelta := 20, longitudeDelta := 20 }

/-- The mapping applied to each raw node inside loadPhotos: id and uri from
the storage URI, coordinates defaulted to 0 when the location field is
absent, timestamp set to Date.now() of the reconstruction. -/
def processPhoto (now : Int) (node : RawNode) : PhotoData :=
  { id := node.image.uri
    uri := node.image.uri
    location :=
      { latitude := (node.location.map RawLocation.latitude).getD 0
        longitude := (node.location.map RawLocation.longitude).getD 0
        timestamp := now }
    dimensions := { width := node.image.width, height := node.image.height } }

/-- The map-then-filter step of loadPhotos: every raw node becomes a
PhotoData and only those with both coordinates nonzero are kept. -/
def processPhotos (now : Int) (edges : List RawNode) : List PhotoData :=
  (edges.map (processPhoto now)).filter
    (fun p => decide (p.location.latitude ≠ 0 ∧ p.location.longitude ≠ 0))

/-- Outcome of one CameraRoll.getPhotos call: failure models the promise
rejecting, success carries the returned edges. -/
inductive QueryResult where
  | failure
  | success (edges : List RawNode)
deriving DecidableEq

/-- loadPhotos from GeoMapView. Returns immediately when permissions are not
granted. On a successful query it stores the processed photos and, when the
list is non-empty, recenters the region on the first entry at a 0.02 degree
span; a thrown query is caught, logged and leaves the state untouched. -/
def loadPhotos (q : QueryResult) (now : Int) (s : GalleryState) : GalleryState :=
  if !s.permissionsGranted then s
  else
    match q with
    | .failure => s
    | .success edges =>
        let processedPhotos := processPhotos now edges
        let s1 := { s with photos := processedPhotos }
        match processedPhotos with
        | [] => s1
        | lastPhoto :: _ =>
            { s1 with region :=
                { latitude := lastPhoto.location.latitude
                  longitude := lastPhoto.location.longitude
                  latitudeDelta := 0.02
                  longitudeDelta := 0.02 } }

/-- The thumbnail onPress handler of GeoMapView: selects the photo and
recenters the region on it at a 0.005 degree span. -/
def selectThumbnail (item : PhotoData) (s : GalleryState) : GalleryState :=
  { s with selectedPhoto := some item
           region :=
             { latitude := item.location.latitude
               longitude := item.location.longitude
               latitudeDelta := 0.005
               longitudeDelta := 0.005 } }

/-- The literal argument GeoMapView passes to CameraRoll.getPhotos. The
include list of the source is named includeFields here. -/
structure GetPhotosParams where
  first : Nat
  assetType : String
  groupName : String
  includeFields : List String
deriving DecidableEq

def getPhotosParams : GetPhotosParams :=
  { first := 50
    assetType := "Photos"
    groupName := "GeoMapCamera"
    includeFields := ["location", "imageSize", "filename"] }

/-- One entry of the device photo store: the raw node plus the album it
belongs to. -/
structure StoreEntry where
  node : RawNode
  album : String
deriving DecidableEq

/-- Modelled from the spec: the photo store capability query (collection
name, limit, fields), absent from src, which returns up to limit most-recent
entries scoped to the named collection; the store list is taken as already
ordered most-recent-first. -/
def storeQuery (store : List StoreEntry) (params : GetPhotosParams) : List RawNode :=
  ((store.filter (fun e => e.album == params.groupName)).take params.first).map StoreEntry.node

/-- loadPhotos composed with the modelled store query at the literal
parameters of the source. -/
def loadPhotosFromStore (store : List StoreEntry) (now : Int) (s : GalleryState) : GalleryState :=
  loadPhotos (.success (storeQuery store getPhotosParams)) now s

/-! ## Permission gate (PermissionHandler) -/

/-- The status values of the react-native-permissions library. -/
inductive PermissionStatus where
  | unavailable
  | denied
  | limited
  | granted
  | blocked
deriving DecidableEq

/-- Environment of one requestPermissions invocation: whether the platform
defines both permission constants, the two check results, and the two
request results that would be delivered were the prompts issued. The check
and request calls are modelled as total; the surrounding catch that turns a
rejected native call into a false return is therefore never taken. -/
structure PermEnv where
  platformHasPermissions : Bool
  cameraCheck : PermissionStatus
  locationCheck : PermissionStatus
  cameraRequest : PermissionStatus
  locationRequest : PermissionStatus
deriving DecidableEq

/-- Observable side effects of one requestPermissions invocation: which
prompts were issued and whether the not-all-granted alert was shown. -/
structure PermEffects where
  cameraRequested : Bool
  locationRequested : Bool
  alertShown : Bool
deriving DecidableEq

def noPermEffects : PermEffects :=
  { cameraRequested := false, locationRequested := false, alertShown := false }

/-- The final camera status of one invocation: the check result, or the
request result when the check was not granted. -/
def finalCameraStatus (env : PermEnv) : PermissionStatus :=
  if env.cameraCheck ≠ .granted then env.cameraRequest else env.cameraCheck

/-- The final location status of one invocation. -/
def finalLocationStatus (env : PermEnv) : PermissionStatus :=
  if env.locationCheck ≠ .granted then env.locationRequest else env.locationCheck

/-- requestPermissions from PermissionHandler, as a function of the
environment and the current permissionsGranted state: returns the value it
resolves with, the new permissionsGranted state and the effects. With no
platform constants it logs and returns false without touching state; else it
checks both capabilities, prompts for each one not already granted, stores
whether both final statuses are granted, and alerts when they are not. -/
def requestPermissions (env : PermEnv) (s : Bool) : Bool × Bool × PermEffects :=
  if !env.platformHasPermissions then
    (false, s, noPermEffects)
  else
    let allGranted :=
      finalCameraStatus env = .granted ∧ finalLocationStatus env = .granted
    (decide allGranted, decide allGranted,
     { cameraRequested := decide (env.cameraCheck ≠ .granted)
       locationRequested := decide (env.locationCheck ≠ .granted)
       alertShown := decide (¬ allGranted) })

/-! ## Helper lemmas -/

theorem takePhoto_of_isCapturing (env : CaptureEnv) (s : CameraState)
    (h : s.isCapturing = true) :
    (takePhoto env s).1 = s ∧ (takePhoto env s).2.savedPaths = [] := by
  unfold takePhoto
  split
  · exact ⟨rfl, rfl⟩
  · simp [h, noCaptureEffects]

theorem takePhoto_success (env : CaptureEnv) (s : CameraState) (path : String)
    (hperm : env.hasPermission = true)
    (href : env.cameraRefPresent = true)
    (hidle : s.isCapturing = false)
    (hphoto : env.photoResult = PhotoResult.returned path)
    (hpath : path ≠ "") :
    takePhoto env s =
      ({ capturedImage := some { uri := filePathOf env path
                                 location := getCurrentLocation env.geo env.now }
         location := some (getCurrentLocation env.geo env.now)
         isCapturing := false
         cameraError := none },
       { savedPaths := if env.saveOk then [filePathOf env path] else []
         alerts := [] }) := by
  unfold takePhoto takePhotoBody
  simp [hperm, href, hidle, hphoto, hpath, inFlight]

theorem takePhoto_shutterFailure (env : CaptureEnv) (s : CameraState)
    (hperm : env.hasPermission = true)
    (href : env.cameraRefPresent = true)
    (hidle : s.isCapturing = false)
    (hfail : env.photoResult = PhotoResult.thrown ∨ env.photoResult = PhotoResult.returned "") :
    takePhoto env s =
      ({ capturedImage := s.capturedImage
         location := some (getCurrentLocation env.geo env.now)
         isCapturing := false
         cameraError := some captureFailedMsg },
       { savedPaths := [], alerts := [captureFailedMsg] }) := by
  rcases hfail with h | h <;>
    (unfold takePhoto takePhotoBody; simp [hperm, href, hidle, h, inFlight])

theorem takePhoto_clears_flag (env : CaptureEnv) (s : CameraState)
    (h : s.isCapturing = false) :
    (takePhoto env s).1.isCapturing = false := by
  unfold takePhoto
  split
  · exact h
  · split
    · exact h
    · unfold takePhotoBody
      rcases hp : env.photoResult with _ | path
      · simp [inFlight]
      · by_cases hp2 : path = "" <;> simp [hp2, inFlight]

/-! ## Claims about the capture workflow -/

/-- C1: whenever the location provider errors or times out, capture does not
abort: the sentinel fix (0, 0, now) is substituted as the location of the
photo, the capture succeeds (a preview record is produced with no error
state), and the coordinates of that record are (0, 0). -/
theorem capture_location_failure_uses_sentinel
    (env : CaptureEnv) (s : CameraState) (path : String)
    (hperm : env.hasPermission = true)
    (href : env.cameraRefPresent = true)
    (hidle : s.isCapturing = false)
    (hphoto : env.photoResult = PhotoResult.returned path)
    (hpath : path ≠ "")
    (hgeo : env.geo = GeoResult.failure) :
    (takePhoto env s).1.capturedImage =
      some { uri := filePathOf env path
             location := { latitude := 0, longitude := 0
                           timestamp := env.now, date := dateString env.now } } ∧
    (takePhoto env s).1.cameraError = none ∧
    (takePhoto env s).1.isCapturing = false := by
  rw [takePhoto_success env s path hperm href hidle hphoto hpath]
  simp [getCurrentLocation, hgeo]

/-- Witness for C1 at a concrete failed fix. -/
theorem capture_location_failure_uses_sentinel_witness :
    (takePhoto ⟨true, true, true, .failure, 1000, .returned "a.jpg", false, true⟩
        ⟨none, none, false, none⟩).1.capturedImage =
      some ⟨"a.jpg", ⟨0, 0, 1000, dateString 1000⟩⟩ :=
  (capture_location_failure_uses_sentinel _ _ "a.jpg" rfl rfl rfl rfl (by decide) rfl).1

/-- C3: a second takePhoto invoked while a first capture is in flight (the
in-flight state has isCapturing set, which the first invocation establishes
before its first await) changes no state and persists no record, whatever
the environment of the second invocation delivers; in the concrete
coalesced-press scenario the two presses together persist exactly one
record. -/
theorem capture_reentrancy_coalesced :
    (∀ (env2 : CaptureEnv) (s : CameraState),
        (takePhoto env2 (inFlight s)).1 = inFlight s ∧
        (takePhoto env2 (inFlight s)).2.savedPaths = []) ∧
    (((takePhoto ⟨true, true, true, .success 1 2 3, 4, .returned "c.jpg", false, true⟩
          (inFlight ⟨none, none, false, none⟩)).2.savedPaths ++
      (takePhoto ⟨true, true, true, .success 1 2 3, 4, .returned "c.jpg", false, true⟩
          ⟨none, none, false, none⟩).2.savedPaths).length = 1 ∧
     (takePhoto ⟨true, true, true, .success 1 2 3, 4, .returned "c.jpg", false, true⟩
          ⟨none, none, false, none⟩).1.isCapturing = false) := by
  refine ⟨fun env2 s => takePhoto_of_isCapturing env2 (inFlight s) rfl, by decide, by decide⟩

/-- C5: when the camera returns a valid image but the store save call
errors, the failure is non-fatal: the workflow still reaches the preview
state with the captured URI and its location, no error state is set, no
alert is raised, and merely no record is persisted. -/
theorem save_failure_nonfatal
    (env : CaptureEnv) (s : CameraState) (path : String)
    (hperm : env.hasPermission = true)
    (href : env.cameraRefPresent = true)
    (hidle : s.isCapturing = false)
    (hphoto : env.photoResult = PhotoResult.returned path)
    (hpath : path ≠ "")
    (hsave : env.saveOk = false) :
    (takePhoto env s).1.capturedImage =
      some { uri := filePathOf env path, location := getCurrentLocation env.geo env.now } ∧
    (takePhoto env s).1.location = some (getCurrentLocation env.geo env.now) ∧
    (takePhoto env s).1.cameraError = none ∧
    (takePhoto env s).2.alerts = [] ∧
    (takePhoto env s).2.savedPaths = [] := by
  rw [takePhoto_success env s path hperm href hidle hphoto hpath]
  simp [hsave]

/-- Witness for C5 at a concrete failing save. -/
theorem save_failure_nonfatal_witness :
    (takePhoto ⟨true, true, true, .success 7 8 9, 10, .returned "b.jpg", false, false⟩
        ⟨none, none, false, none⟩).1.capturedImage =
      some ⟨"b.jpg", ⟨7, 8, 9, dateString 9⟩⟩ ∧
    (takePhoto ⟨true, true, true, .success 7 8 9, 10, .returned "b.jpg", false, false⟩
        ⟨none, none, false, none⟩).2.alerts = [] :=
  ⟨(save_failure_nonfatal _ _ "b.jpg" rfl rfl rfl rfl (by decide) rfl).1,
   (save_failure_nonfatal _ _ "b.jpg" rfl rfl rfl rfl (by decide) rfl).2.2.2.1⟩

/-- C6: retakePhoto clears the preview (returning the workflow to the idle
configuration in which no preview is rendered), and a retake followed by a
successful capture ends in a state and effect pair fully determined by the
new capture environment, with no residual trace of the discarded photo. -/
theorem retake_then_capture_clean_cycle
    (env : CaptureEnv) (s : CameraState) (path : String)
    (hperm : env.hasPermission = true)
    (href : env.cameraRefPresent = true)
    (hidle : s.isCapturing = false)
    (hphoto : env.photoResult = PhotoResult.returned path)
    (hpath : path ≠ "") :
    (retakePhoto s).capturedImage = none ∧
    takePhoto env (retakePhoto s) =
      ({ capturedImage := some { uri := filePathOf env path
                                 location := getCurrentLocation env.geo env.now }
         location := some (getCurrentLocation env.geo env.now)
         isCapturing := false
         cameraError := none },
       { savedPaths := if env.saveOk then [filePathOf env path] else []
         alerts := [] }) :=
  ⟨rfl, takePhoto_success env (retakePhoto s) path hperm href hidle hphoto hpath⟩

/-- Witness for C6: a discarded preview followed by a fresh capture. -/
theorem retake_then_capture_clean_cycle_witness :
    (retakePhoto ⟨some ⟨"old.jpg", ⟨5, 6, 7, dateString 7⟩⟩,
        some ⟨5, 6, 7, dateString 7⟩, false, none⟩).capturedImage = none ∧
    takePhoto ⟨true, true, true, .success 11 22 33, 44, .returned "new.jpg", false, true⟩
        (retakePhoto ⟨some ⟨"old.jpg", ⟨5, 6, 7, dateString 7⟩⟩,
            some ⟨5, 6, 7, dateString 7⟩, false, none⟩) =
      (⟨some ⟨"new.jpg", ⟨11, 22, 33, dateString 33⟩⟩,
        some ⟨11, 22, 33, dateString 33⟩, false, none⟩,
       ⟨["new.jpg"], []⟩) :=
  retake_then_capture_clean_cycle _ _ "new.jpg" rfl rfl rfl rfl (by decide)

/-- C9: a capture attempt that fails in flight (the shutter call throws, or
returns an empty image reference, both failing with the capture-failed
message) surfaces that retryable user-facing message both as the error
state and as an alert, leaves no preview behind, and clears the in-flight
flag; moreover the in-flight flag is false after every attempt started from
a non-capturing state, so a subsequent capture is possible. -/
theorem capture_failure_recovery :
    (∀ (env : CaptureEnv) (s : CameraState),
        env.hasPermission = true →
        env.cameraRefPresent = true →
        s.isCapturing = false →
        (env.photoResult = PhotoResult.thrown ∨ env.photoResult = PhotoResult.returned "") →
        (takePhoto env s).1.cameraError = some captureFailedMsg ∧
        (takePhoto env s).2.alerts = [captureFailedMsg] ∧
        (takePhoto env s).1.isCapturing = false ∧
        (takePhoto env s).1.capturedImage = s.capturedImage) ∧
    (∀ (env : CaptureEnv) (s : CameraState),
        (takePhoto env { s with isCapturing := false }).1.isCapturing = false) := by
  constructor
  · intro env s hperm href hidle hfail
    rw [takePhoto_shutterFailure env s hperm href hidle hfail]
    simp
  · intro env s
    exact takePhoto_clears_flag env { s with isCapturing := false } rfl

/-- Witness for C9 at a concrete empty image reference. -/
theorem capture_failure_recovery_witness :
    (takePhoto ⟨true, true, true, .success 1 2 3, 4, .returned "", false, true⟩
        ⟨none, none, false, none⟩).1.cameraError = some captureFailedMsg ∧
    (takePhoto ⟨true, true, true, .success 1 2 3, 4, .returned "", false, true⟩
        ⟨none, none, false, none⟩).2.alerts = [captureFailedMsg] ∧
    (takePhoto ⟨true, true, true, .success 1 2 3, 4, .returned "", false, true⟩
        ⟨none, none, false, none⟩).1.isCapturing = false ∧
    (takePhoto ⟨true, true, true, .success 1 2 3, 4, .returned "", false, true⟩
        ⟨none, none, false, none⟩).1.capturedImage = none :=
  capture_failure_recovery.1 _ _ rfl rfl rfl (Or.inr rfl)

/-! ## Claims about gallery reconstruction and the permission gate -/

theorem loadPhotos_success_photos (edges : List RawNode) (now : Int) (s : GalleryState)
    (hperm : s.permissionsGranted = true) :
    (loadPhotos (.success edges) now s).photos = processPhotos now edges := by
  unfold loadPhotos
  rcases h : processPhotos now edges with _ | ⟨p, rest⟩ <;> simp [hperm, h]

theorem loadPhotos_success_region (edges : List RawNode) (now : Int) (s : GalleryState)
    (p : PhotoData) (rest : List PhotoData)
    (hperm : s.permissionsGranted = true)
    (h : processPhotos now edges = p :: rest) :
    (loadPhotos (.success edges) now s).region =
      { latitude := p.location.latitude, longitude := p.location.longitude
        latitudeDelta := 0.02, longitudeDelta := 0.02 } := by
  unfold loadPhotos
  simp [hperm, h]

/-- C2: a photo is in the list produced by loadPhotos exactly when it is the
image of a returned raw node under the per-node mapping and both of its
coordinates are nonzero; in particular no entry carrying the (0, 0)
sentinel location is ever present. -/
theorem gallery_includes_iff_nonzero
    (edges : List RawNode) (now : Int) (s : GalleryState)
    (hperm : s.permissionsGranted = true) :
    (∀ p : PhotoData,
        p ∈ (loadPhotos (.success edges) now s).photos ↔
          ((∃ node ∈ edges, processPhoto now node = p) ∧
           p.location.latitude ≠ 0 ∧ p.location.longitude ≠ 0)) ∧
    (∀ p ∈ (loadPhotos (.success edges) now s).photos,
        ¬ (p.location.latitude = 0 ∧ p.location.longitude = 0)) := by
  have hphotos := loadPhotos_success_photos edges now s hperm
  constructor
  · intro p
    rw [hphotos]
    simp [processPhotos, List.mem_filter, List.mem_map]
  · intro p hp
    rw [hphotos] at hp
    simp [processPhotos, List.mem_filter] at hp
    tauto

/-- Witness for C2: a concrete located photo passes the filter and indeed
has nonzero coordinates. -/
theorem gallery_includes_iff_nonzero_witness :
    ¬ ((processPhoto 3 ⟨⟨"u", 100, 100⟩, some ⟨1, 2⟩⟩).location.latitude = 0 ∧
       (processPhoto 3 ⟨⟨"u", 100, 100⟩, some ⟨1, 2⟩⟩).location.longitude = 0) :=
  (gallery_includes_iff_nonzero [⟨⟨"u", 100, 100⟩, some ⟨1, 2⟩⟩] 3
      ⟨true, [], none, defaultRegion⟩ rfl).2 _ (by decide)

/-- C4: the permission gate resolves with true exactly when both final
statuses are granted; the stored readiness flag equals that value; the
user-facing notice is shown exactly when not all are granted; a prompt is
issued for a capability exactly when its fresh check is not granted; and the
outcome is independent of the previously cached readiness state. -/
theorem permission_gate_both_required (env : PermEnv) (s : Bool)
    (hplat : env.platformHasPermissions = true) :
    ((requestPermissions env s).1 = true ↔
        (finalCameraStatus env = .granted ∧ finalLocationStatus env = .granted)) ∧
    (requestPermissions env s).2.1 = (requestPermissions env s).1 ∧
    ((requestPermissions env s).2.2.alertShown = true ↔
        ¬ (requestPermissions env s).1 = true) ∧
    ((requestPermissions env s).2.2.cameraRequested = true ↔ env.cameraCheck ≠ .granted) ∧
    ((requestPermissions env s).2.2.locationRequested = true ↔ env.locationCheck ≠ .granted) ∧
    (∀ s2 : Bool, requestPermissions env s2 = requestPermissions env s) := by
  simp [requestPermissions, hplat]
  tauto

/-- Witness for C4: camera granted but location denied yields a false
readiness result. -/
theorem permission_gate_both_required_witness :
    ((requestPermissions ⟨true, .granted, .denied, .granted, .denied⟩ false).1 = true ↔
      (finalCameraStatus ⟨true, .granted, .denied, .granted, .denied⟩ = .granted ∧
       finalLocationStatus ⟨true, .granted, .denied, .granted, .denied⟩ = .granted)) :=
  (permission_gate_both_required ⟨true, .granted, .denied, .granted, .denied⟩ false rfl).1

/-- C7: the gallery query is issued with limit 50 against the applications
own album; every returned node stems from an entry of that album; the
reconstructed list never exceeds 50 photos; and the per-node mapping takes
id and uri from the storage URI, stamps the reconstruction time as the
capture timestamp, and defaults both coordinates to 0 when the node carries
no location metadata. -/
theorem gallery_query_limit_and_mapping
    (store : List StoreEntry) (now : Int) (s : GalleryState)
    (hperm : s.permissionsGranted = true) :
    getPhotosParams.first = 50 ∧
    getPhotosParams.groupName = "GeoMapCamera" ∧
    (∀ node ∈ storeQuery store getPhotosParams,
        ∃ e ∈ store, e.album = "GeoMapCamera" ∧ e.node = node) ∧
    (loadPhotosFromStore store now s).photos.length ≤ 50 ∧
    (∀ node : RawNode,
        (processPhoto now node).id = node.image.uri ∧
        (processPhoto now node).uri = node.image.uri ∧
        (processPhoto now node).location.timestamp = now) ∧
    (∀ img : RawImage,
        (processPhoto now { image := img, location := none }).location.latitude = 0 ∧
        (processPhoto now { image := img, location := none }).location.longitude = 0) := by
  refine ⟨rfl, rfl, ?_, ?_, fun node => ⟨rfl, rfl, rfl⟩, fun img => ⟨rfl, rfl⟩⟩
  · intro node hn
    unfold storeQuery at hn
    rw [List.mem_map] at hn
    obtain ⟨e, he, hnode⟩ := hn
    have he2 := List.mem_of_mem_take he
    rw [List.mem_filter] at he2
    refine ⟨e, he2.1, ?_, hnode⟩
    have := he2.2
    simpa [getPhotosParams] using this
  · unfold loadPhotosFromStore
    rw [loadPhotos_success_photos _ _ _ hperm]
    calc (processPhotos now (storeQuery store getPhotosParams)).length
        ≤ ((storeQuery store getPhotosParams).map (processPhoto now)).length :=
          List.length_filter_le _ _
      _ = (storeQuery store getPhotosParams).length := List.length_map _ _
      _ ≤ 50 := by
          unfold storeQuery
          rw [List.length_map]
          exact (List.length_take_le _ _).trans (le_refl _)

/-- Witness for C7 on a concrete one-entry store. -/
theorem gallery_query_limit_and_mapping_witness :
    (loadPhotosFromStore [⟨⟨⟨"w", 10, 10⟩, some ⟨3, 4⟩⟩, "GeoMapCamera"⟩] 6
        ⟨true, [], none, defaultRegion⟩).photos.length ≤ 50 :=
  (gallery_query_limit_and_mapping [⟨⟨⟨"w", 10, 10⟩, some ⟨3, 4⟩⟩, "GeoMapCamera"⟩] 6
      ⟨true, [], none, defaultRegion⟩ rfl).2.2.2.1

/-- C8: whenever the processed result of loadPhotos is non-empty the map
region recenters on the coordinates of its first entry at the wide 0.02
span; selecting a thumbnail selects that photo and recenters on it at the
tight 0.005 span; and in the concrete scenario of three returned entries of
which one has no location field, the reconstructed list has length two and
the region recenters on the first location-bearing entry. -/
theorem gallery_recenter_policy (now : Int) :
    (∀ (edges : List RawNode) (s : GalleryState) (p : PhotoData) (rest : List PhotoData),
        s.permissionsGranted = true →
        processPhotos now edges = p :: rest →
        (loadPhotos (.success edges) now s).region =
          { latitude := p.location.latitude, longitude := p.location.longitude
            latitudeDelta := 0.02, longitudeDelta := 0.02 }) ∧
    (∀ (item : PhotoData) (s : GalleryState),
        (selectThumbnail item s).region =
          { latitude := item.location.latitude, longitude := item.location.longitude
            latitudeDelta := 0.005, longitudeDelta := 0.005 } ∧
        (selectThumbnail item s).selectedPhoto = some item) ∧
    ((loadPhotos (.success [⟨⟨"u1", 1, 1⟩, none⟩, ⟨⟨"u2", 1, 1⟩, some ⟨10, 20⟩⟩,
          ⟨⟨"u3", 1, 1⟩, some ⟨30, 40⟩⟩]) 5
        ⟨true, [], none, defaultRegion⟩).photos.length = 2 ∧
     (loadPhotos (.success [⟨⟨"u1", 1, 1⟩, none⟩, ⟨⟨"u2", 1, 1⟩, some ⟨10, 20⟩⟩,
          ⟨⟨"u3", 1, 1⟩, some ⟨30, 40⟩⟩]) 5
        ⟨true, [], none, defaultRegion⟩).region = ⟨10, 20, 0.02, 0.02⟩) := by
  refine ⟨fun edges s p rest hperm h => loadPhotos_success_region edges now s p rest hperm h,
          fun item s => ⟨rfl, rfl⟩, rfl, rfl⟩

/-- Witness for C8: the non-empty reconstruction recenters on the first
surviving entry. -/
theorem gallery_recenter_policy_witness :
    (loadPhotos (.success [⟨⟨"u1", 1, 1⟩, none⟩, ⟨⟨"u2", 1, 1⟩, some ⟨10, 20⟩⟩,
          ⟨⟨"u3", 1, 1⟩, some ⟨30, 40⟩⟩]) 5
        ⟨true, [], none, defaultRegion⟩).region = ⟨10, 20, 0.02, 0.02⟩ :=
  (gallery_recenter_policy 5).1 _ _ (processPhoto 5 ⟨⟨"u2", 1, 1⟩, some ⟨10, 20⟩⟩)
    [processPhoto 5 ⟨⟨"u3", 1, 1⟩, some ⟨30, 40⟩⟩] rfl (by decide)

/-- C10: a thrown photo store query leaves the gallery state exactly as it
was: loadPhotos is the identity on failure, so the held photo list and map
region survive unchanged and no error escapes. -/
theorem gallery_load_error_atomic (now : Int) (s : GalleryState) :
    loadPhotos .failure now s = s := by
  unfold loadPhotos
  rcases h : s.permissionsGranted <;> simp [h]

end GeoMapCam
